import Mathlib

/-!
Verification of the `ogr` excerpt: the Pagure service client
(`ogr/services/pagure/service.py`) and the GitLab comment adapter
(`ogr/services/gitlab/comments.py`).

The HTTP layer is parametrised by the response the wire delivered: a function
that in Python performs a request here takes the received response as an
argument and computes the value the Python method would return, or the
exception it would raise (`Except`).  Decoded JSON bodies are modelled by the
inductive `Json` below, together with Python's truthiness, membership (`in`)
and subscription (`x[k]`) semantics, including the `TypeError` / `KeyError` /
`IndexError` exceptions those operations can raise.
-/

set_option autoImplicit false

namespace Ogr

/-- A decoded JSON value, as Python's `json` module produces it.
Numbers are modelled as integers (no claim involves fractional bodies);
objects are association lists with distinct string keys, the shape
`json.loads` yields. -/
inductive Json where
  | null
  | bool (b : Bool)
  | num (n : Int)
  | str (s : String)
  | arr (elts : List Json)
  | obj (fields : List (String × Json))

/-- A Python-level exception raised by an operation on decoded JSON
(or by attribute access on a duck-typed object). -/
inductive PyErr where
  | typeError
  | keyError
  | indexError
  | attributeError
deriving DecidableEq

/-- Python truthiness (`bool(x)`) of a decoded JSON value. -/
def Json.toBool : Json → Bool
  | .null => false
  | .bool b => b
  | .num n => n != 0
  | .str s => s ≠ ""
  | .arr elts => !elts.isEmpty
  | .obj fields => !fields.isEmpty

/-- Is `needle` a contiguous substring of `hay` (Python `needle in hay` on
strings)? -/
def listInfix (needle : List Char) : List Char → Bool
  | [] => needle.isEmpty
  | c :: rest => needle.isPrefixOf (c :: rest) || listInfix needle rest

/-- Python `k in j` on a decoded JSON value: key membership for objects,
element membership for arrays, substring test for strings; a `TypeError`
for the remaining types. -/
def Json.hasMember (j : Json) (k : String) : Except PyErr Bool :=
  match j with
  | .obj fields => .ok (fields.any (fun f => f.1 == k))
  | .arr elts => .ok (elts.any (fun e => match e with | .str s => s == k | _ => false))
  | .str s => .ok (listInfix k.data s.data)
  | _ => .error .typeError

/-- First binding of key `k` in an object's field list. -/
def objLookup (fields : List (String × Json)) (k : String) : Option Json :=
  (fields.find? (fun f => f.1 == k)).map (fun f => f.2)

/-- Python `j[k]` with a string subscript: object lookup (`KeyError` when the
key is missing), `TypeError` otherwise. -/
def Json.getItemStr (j : Json) (k : String) : Except PyErr Json :=
  match j with
  | .obj fields =>
    match objLookup fields k with
    | some v => .ok v
    | none => .error .keyError
  | _ => .error .typeError

/-- Python `j[i]` with an integer subscript: array indexing (`IndexError` out
of range), one-character string for strings, `KeyError` for objects (decoded
JSON objects have only string keys), `TypeError` otherwise. -/
def Json.getItemNat (j : Json) (i : Nat) : Except PyErr Json :=
  match j with
  | .arr elts =>
    match elts.get? i with
    | some e => .ok e
    | none => .error .indexError
  | .str s =>
    match s.data.get? i with
    | some c => .ok (.str (String.singleton c))
    | none => .error .indexError
  | .obj _ => .error .keyError
  | _ => .error .typeError

/-- Python `j == s` against a string literal: true exactly for the equal
JSON string (no other decoded JSON type compares equal to a `str`). -/
def jsonEqStr (j : Json) (s : String) : Bool :=
  match j with
  | .str t => t = s
  | _ => false

/-- `PagureAPIException` (defined in `ogr.exceptions`, outside this excerpt),
one constructor per `raise` site in `call_api`, each carrying exactly the
structured payload passed there (`pagure_error` / `pagure_response` default to
absent in the Python class). -/
inductive PagureAPIException where
  /-- "Page `{url}` not found when calling Pagure API." with `pagure_error`. -/
  | notFound (url : String) (pagure_error : Option Json)
  /-- "Error while decoding JSON: \x7b0\x7d". -/
  | decodeFailure
  /-- "Pagure API returned an error when calling `{url}`: {error_msg}" with
  `pagure_error` and `pagure_response`. -/
  | apiError (url : String) (pagure_error : Json) (pagure_response : Json)
  /-- "Problem with Pagure API when calling `{url}`". -/
  | genericApiProblem (url : String)

/-- The `pagure_response` attribute: only the `apiError` raise site passes it;
the class default is `None`. -/
def PagureAPIException.pagure_response : PagureAPIException → Option Json
  | .apiError _ _ r => some r
  | _ => none

/-- `OgrException` (defined in `ogr.exceptions`, outside this excerpt):
a plain message-carrying exception. -/
structure OgrException where
  message : String

/-- Any exception observable from the modelled operations. -/
inductive PyExc where
  | pagureAPI (e : PagureAPIException)
  | ogr (e : OgrException)
  | py (e : PyErr)

/-- Modelled from the spec: the raw response wrapper `ogr.utils.RequestResponse`
(outside this excerpt) — status code, ok flag, raw bytes, decoded JSON
(optional), reason string. -/
structure RequestResponse where
  status_code : Nat
  ok : Bool
  content : String
  json_content : Option Json
  reason : String

/-- The part of a `requests` HTTP response that `get_raw_request` consumes:
status code, raw body, reason phrase, and the outcome of `response.json()`
(`Except.error ()` models the `ValueError` an undecodable body raises). -/
structure HttpResponse where
  status_code : Nat
  content : String
  reason : String
  json : Except Unit Json

/-- `requests.Response.ok`: false exactly when `raise_for_status` would raise,
i.e. when the status code lies in 400..599. -/
def responseOk (status_code : Nat) : Bool :=
  if 400 ≤ status_code ∧ status_code < 600 then false else true

/-- `PagureService.get_raw_request`, as a function of the received response:
tries `response.json()`, catching the `ValueError` of an undecodable body
(the decoded-JSON field then stays `None`), and wraps status, ok flag, raw
bytes and reason into a `RequestResponse`. -/
def get_raw_request (resp : HttpResponse) : RequestResponse :=
  let json_output : Option Json :=
    match resp.json with
    | .ok j => some j
    | .error _ => none
  { status_code := resp.status_code
    ok := responseOk resp.status_code
    content := resp.content
    json_content := json_output
    reason := resp.reason }

/-- `PagureService.call_api`, as a function of the response the raw call
returned.  Mirrors the source order: the 404 check first (with
`error_msg = response.json_content["error"] if response.json_content and
"error" in response.json_content else None`), then the
`if not response.json_content` decode check (Python truthiness), then the
`if not response.ok` branch, and finally the decoded body is returned. -/
def call_api (url : String) (response : RequestResponse) : Except PyExc Json :=
  if response.status_code = 404 then
    match response.json_content with
    | some j =>
      if j.toBool then
        match j.hasMember "error" with
        | .error e => .error (.py e)
        | .ok true =>
          match j.getItemStr "error" with
          | .error e => .error (.py e)
          | .ok v => .error (.pagureAPI (.notFound url (some v)))
        | .ok false => .error (.pagureAPI (.notFound url none))
      else .error (.pagureAPI (.notFound url none))
    | none => .error (.pagureAPI (.notFound url none))
  else
    match response.json_content with
    | none => .error (.pagureAPI .decodeFailure)
    | some j =>
      if j.toBool then
        if response.ok then .ok j
        else
          match j.hasMember "error" with
          | .error e => .error (.py e)
          | .ok true =>
            match j.getItemStr "error" with
            | .error e => .error (.py e)
            | .ok error_msg => .error (.pagureAPI (.apiError url error_msg j))
          | .ok false => .error (.pagureAPI (.genericApiProblem url))
      else .error (.pagureAPI .decodeFailure)

/-- The client state of `PagureService` that the modelled operations touch:
instance URL, optional token, the flags, and the derived auth header
(a header dict, modelled as an association list). -/
structure PagureService where
  instance_url : String
  token : Option String
  read_only : Bool
  insecure : Bool
  header : List (String × String)

/-- `PagureService.__init__`'s header computation:
`{"Authorization": "token " + self._token} if self._token else {}`
(an absent or empty token — Python falsiness — yields the empty dict). -/
def PagureService.init (token : Option String) (instance_url : String)
    (read_only insecure : Bool) : PagureService :=
  { instance_url := instance_url
    token := token
    read_only := read_only
    insecure := insecure
    header :=
      match token with
      | some t => if t ≠ "" then [("Authorization", "token " ++ t)] else []
      | none => [] }

/-- `PagureService.change_token`: stores the new token and recomputes the
auth header unconditionally. -/
def change_token (s : PagureService) (token : String) : PagureService :=
  { s with token := some token, header := [("Authorization", "token " ++ token)] }

/-- The headers `get_raw_request` passes to the session:
`headers=header or self.header` — Python `or`, so an absent or empty (falsy)
explicit header falls back to the client's stored header. -/
def request_headers (s : PagureService) (header : Option (List (String × String))) :
    List (String × String) :=
  match header with
  | some h => if h.isEmpty then s.header else h
  | none => s.header

/-- `PagureService.api_url`: `f"{self.instance_url}/api/0/"`. -/
def api_url (instance_url : String) : String :=
  instance_url ++ "/api/0/"

/-- `PagureService.get_api_url`: keep the arguments that are not `None`
(`filter(lambda x: x is not None, args)`), join them with `"/"`, and prefix
either the API root or the bare instance URL. -/
def get_api_url (instance_url : String) (args : List (Option String))
    (add_api_endpoint_part : Bool) : String :=
  let args_list : List String := args.filterMap id
  if add_api_endpoint_part then
    api_url instance_url ++ String.intercalate "/" args_list
  else
    instance_url ++ "/" ++ String.intercalate "/" args_list

/-- Modelled from the spec: the project handle `project_create` returns
(`PagureProject` lives outside this excerpt); the spec keys it by
namespace and repo, which is all `project_create` passes besides the
service itself. -/
structure PagureProject where
  repo : String
  name_space : Option String

/-- The `data` dict `PagureService.project_create` POSTs to the creation
endpoint. -/
structure ProjectCreateParams where
  name : String
  description : String
  wait : Bool
  name_space : Option String

/-- The parameter-building prefix of `PagureService.project_create`:
`{"name": repo, "description": description, "wait": True}`, then
`if not description: parameters["description"] = repo` (Python truthiness,
so both `None` and `""` are replaced by `repo`), and the namespace entry is
added only when the namespace argument is truthy. -/
def project_create_parameters (repo : String) (name_space description : Option String) :
    ProjectCreateParams :=
  { name := repo
    description :=
      match description with
      | some d => if d = "" then repo else d
      | none => repo
    wait := true
    name_space :=
      match name_space with
      | some n => if n = "" then none else some n
      | none => none }

/-- The Python `str()` of the namespace argument as it appears interpolated in
the `OgrException` message (`str(None) = "None"`). -/
def optionStr : Option String → String
  | some s => s
  | none => "None"

/-- `PagureService.project_create`, as a function of the response the POST to
the creation endpoint returned.  Runs `call_api`; a raised
`PagureAPIException` is caught and, when
`ex.pagure_response and ex.pagure_response["errors"]["namespace"][0] ==
"Not a valid choice"`, re-raised as the domain `OgrException`; when the guard
is false the original exception is re-raised; an exception the subscript
chain itself raises (`KeyError` / `IndexError` / `TypeError`) escapes instead. -/
def project_create (instance_url repo : String) (name_space description : Option String)
    (response : RequestResponse) : Except PyExc PagureProject :=
  let request_url := get_api_url instance_url [some "new"] true
  let _parameters := project_create_parameters repo name_space description
  match call_api request_url response with
  | .ok _ => .ok { repo := repo, name_space := name_space }
  | .error e =>
    match e with
    | .pagureAPI ex =>
      match ex.pagure_response with
      | some r =>
        if r.toBool then
          match (do
            let a ← r.getItemStr "errors"
            let b ← a.getItemStr "namespace"
            b.getItemNat 0 : Except PyErr Json) with
          | .error pe => .error (.py pe)
          | .ok v =>
            if jsonEqStr v "Not a valid choice" then
              .error (.ogr ⟨"Cannot create project in given namespace ("
                ++ optionStr name_space ++ ")."⟩)
            else .error (.pagureAPI ex)
        else .error (.pagureAPI ex)
      | none => .error (.pagureAPI ex)
    | other => .error other

/-- The attributes of a forge-native note object that
`GitlabCommentParser._from_raw_comment` reads; an absent attribute
(`Option.none`) makes the access raise. -/
structure RawComment where
  body : Option String
  author : Option (List (String × String))
  created_at : Option String
  updated_at : Option String

/-- The unified comment record the adapter fills in
(`self.comment`, `self.author`, `self.created`, `self.edited`). -/
structure GitlabComment where
  comment : String
  author : String
  created : String
  edited : String

/-- Python attribute access on a duck-typed object: an absent attribute
raises `AttributeError`. -/
def getAttr {α : Type} : Option α → Except PyErr α
  | some v => .ok v
  | none => .error .attributeError

/-- First value bound to `k` in a string-valued dict. -/
def lookupStr (d : List (String × String)) (k : String) : Option String :=
  (d.find? (fun f => f.1 == k)).map (fun f => f.2)

/-- Python `d[k]` on a string-valued dict: `KeyError` when the key is absent. -/
def dictGetStr (d : List (String × String)) (k : String) : Except PyErr String :=
  match lookupStr d k with
  | some v => .ok v
  | none => .error .keyError

/-- `GitlabCommentParser._from_raw_comment`: copies `body`,
`author["username"]`, `created_at` and `updated_at` verbatim onto the unified
record; any absent attribute or missing dict key raises. -/
def GitlabCommentParser.from_raw_comment (raw : RawComment) :
    Except PyErr GitlabComment := do
  let body ← getAttr raw.body
  let author_dict ← getAttr raw.author
  let username ← dictGetStr author_dict "username"
  let created ← getAttr raw.created_at
  let edited ← getAttr raw.updated_at
  pure { comment := body, author := username, created := created, edited := edited }

/-- A raw note is missing a required field when `body`, `author`,
`author["username"]`, `created_at` or `updated_at` is absent. -/
def RawComment.missing_required (raw : RawComment) : Bool :=
  raw.body.isNone || raw.author.isNone ||
    (match raw.author with
     | some d => (lookupStr d "username").isNone
     | none => true) ||
    raw.created_at.isNone || raw.updated_at.isNone

/-- Does the checked call raise a `PagureAPIException` (as opposed to
returning, or to some other exception escaping)? -/
def raisesPagureAPIExc (r : Except PyExc Json) : Bool :=
  match r with
  | .error (.pagureAPI _) => true
  | _ => false

/-- Is the computation's outcome an exception? -/
def isExcError {ε α : Type} : Except ε α → Bool
  | .error _ => true
  | .ok _ => false

/-- The `error_msg` computed at the 404 raise site of `call_api`, as a
function of the decode outcome, for the undecodable-body and object-body
cases. -/
def notFound_error_msg : Except Unit Json → Option Json
  | .ok (.obj fields) => objLookup fields "error"
  | _ => none

/-! ## Helper lemmas -/

theorem objLookup_eq_none_of_find?_eq_none {fields : List (String × Json)} {k : String}
    (h : fields.find? (fun e => e.1 == k) = none) : objLookup fields k = none := by
  simp [objLookup, h]

theorem any_key_of_find?_eq_some {fields : List (String × Json)} {k : String}
    {p : String × Json} (h : fields.find? (fun e => e.1 == k) = some p) :
    fields.any (fun e => e.1 == k) = true := by
  have hp := List.find?_some h
  exact List.any_eq_true.mpr ⟨p, List.mem_of_find?_eq_some h, hp⟩

theorem any_key_of_find?_eq_none {fields : List (String × Json)} {k : String}
    (h : fields.find? (fun e => e.1 == k) = none) :
    fields.any (fun e => e.1 == k) = false := by
  rw [List.any_eq_false]
  exact fun x hx => by simpa using List.find?_eq_none.mp h x hx

/-- `call_api` at a 404 response with a decoded object body always raises the
not-found exception carrying the object's `error` binding (if any). -/
theorem call_api_404_obj (url c r : String) (ok : Bool)
    (fields : List (String × Json)) :
    call_api url ⟨404, ok, c, some (.obj fields), r⟩
      = .error (.pagureAPI (.notFound url (objLookup fields "error"))) := by
  cases hfind : fields.find? (fun f => f.1 == "error") with
  | none =>
    have hany := any_key_of_find?_eq_none hfind
    cases fields with
    | nil => simp [call_api, Json.toBool, objLookup]
    | cons g rest =>
      simp [call_api, Json.toBool, Json.hasMember, hany,
        objLookup_eq_none_of_find?_eq_none hfind]
  | some f =>
    have hany := any_key_of_find?_eq_some hfind
    cases fields with
    | nil => simp at hfind
    | cons g rest =>
      simp [call_api, Json.toBool, Json.hasMember, hany, Json.getItemStr,
        objLookup, hfind]

theorem string_append_assoc (a b c : String) : a ++ b ++ c = a ++ (b ++ c) :=
  String.append_assoc a b c

/-! ## Claims -/

/-- C1 (amended): for every response processed by `call_api` whose status code
is not 404 and whose body has no decodable JSON, the decode-failure exception
is raised — regardless of whether the status is 2xx or any other non-404
value.  (As stated over all status codes the claim fails: at 404 the
not-found exception is raised first, see the counterexample.) -/
theorem c1_decode_failure (url : String) (resp : HttpResponse)
    (hs : resp.status_code ≠ 404) (hj : resp.json = .error ()) :
    call_api url (get_raw_request resp) = .error (.pagureAPI .decodeFailure) := by
  simp [call_api, get_raw_request, hs, hj]

/-- C1 (counterexample): a 404 response with an undecodable body makes
`call_api` raise the not-found exception, not the decode-failure one. -/
theorem c1_counterexample :
    call_api "https://x/api/0/version"
        (get_raw_request ⟨404, "not found", "NOT FOUND", .error ()⟩)
      = .error (.pagureAPI (.notFound "https://x/api/0/version" none)) ∧
    call_api "https://x/api/0/version"
        (get_raw_request ⟨404, "not found", "NOT FOUND", .error ()⟩)
      ≠ .error (.pagureAPI .decodeFailure) := by
  refine ⟨rfl, fun h => ?_⟩
  rw [show call_api "https://x/api/0/version"
        (get_raw_request ⟨404, "not found", "NOT FOUND", .error ()⟩)
      = .error (.pagureAPI (.notFound "https://x/api/0/version" none)) from rfl] at h
  injection h with h1
  injection h1 with h2
  injection h2

/-- C1 (witness): a 500 response with an undecodable body. -/
theorem c1_witness :
    call_api "https://x/api/0/version"
        (get_raw_request ⟨500, "oops", "SERVER ERROR", .error ()⟩)
      = .error (.pagureAPI .decodeFailure) :=
  c1_decode_failure "https://x/api/0/version"
    ⟨500, "oops", "SERVER ERROR", .error ()⟩ (by decide) rfl

/-- C2 (amended): every 2xx response whose body decodes to a truthy JSON
value (non-empty object/array/string, non-zero number, `true`) is returned by
`call_api` exactly as decoded.  (As stated over all decodable JSON bodies the
claim fails: a 2xx body decoding to a falsy value such as `\x7b\x7d` raises
the decode-failure exception, see the counterexample.) -/
theorem c2_returns_json (url : String) (resp : HttpResponse) (j : Json)
    (h2a : 200 ≤ resp.status_code) (h2b : resp.status_code < 300)
    (hj : resp.json = .ok j) (ht : j.toBool = true) :
    call_api url (get_raw_request resp) = .ok j := by
  have hok : responseOk resp.status_code = true := by
    unfold responseOk
    rw [if_neg]
    omega
  have hs : ¬ resp.status_code = 404 := by omega
  simp [call_api, get_raw_request, hs, hj, ht, hok]

/-- C2 (counterexample): a 200 response whose body decodes to the empty JSON
object is not returned; `call_api` raises the decode-failure exception on it. -/
theorem c2_counterexample :
    call_api "https://x/api/0/whoami"
        (get_raw_request ⟨200, "\x7b\x7d", "OK", .ok (.obj [])⟩)
      = .error (.pagureAPI .decodeFailure) ∧
    call_api "https://x/api/0/whoami"
        (get_raw_request ⟨200, "\x7b\x7d", "OK", .ok (.obj [])⟩)
      ≠ .ok (.obj []) := by
  refine ⟨rfl, fun h => ?_⟩
  rw [show call_api "https://x/api/0/whoami"
        (get_raw_request ⟨200, "\x7b\x7d", "OK", .ok (.obj [])⟩)
      = .error (.pagureAPI .decodeFailure) from rfl] at h
  injection h

/-- C2 (witness): a 200 response with a non-empty object body is returned
unmodified. -/
theorem c2_witness :
    call_api "https://x/api/0/version"
        (get_raw_request ⟨200, "body", "OK", .ok (.obj [("version", .str "0.31")])⟩)
      = .ok (.obj [("version", .str "0.31")]) :=
  c2_returns_json "https://x/api/0/version"
    ⟨200, "body", "OK", .ok (.obj [("version", .str "0.31")])⟩
    (.obj [("version", .str "0.31")]) (by decide) (by decide) rfl rfl

/-- C3 (amended): for every 404 response whose body either fails to decode or
decodes to a JSON object, `call_api` raises the not-found exception; its
attached `pagure_error` is the object's `error` binding when present and
absent otherwise.  (As stated over all 404 responses the claim fails: a body
decoding to a non-object that Python's `in`/`[]` mishandle escapes with a
`TypeError` instead, see the counterexample.) -/
theorem c3_not_found (url : String) (resp : HttpResponse)
    (hs : resp.status_code = 404)
    (h : resp.json = .error () ∨ ∃ fields, resp.json = .ok (Json.obj fields)) :
    call_api url (get_raw_request resp)
      = .error (.pagureAPI (.notFound url (notFound_error_msg resp.json))) := by
  obtain ⟨sc, c, r, js⟩ := resp
  dsimp at hs
  subst hs
  rcases h with h | ⟨fields, h⟩ <;> simp only at h <;> subst h
  · simp [call_api, get_raw_request, notFound_error_msg]
  · simpa [get_raw_request, notFound_error_msg]
      using call_api_404_obj url c r (responseOk 404) fields

/-- C3 (counterexample): a 404 response whose body decodes to the JSON array
`["error"]` makes `call_api` raise a Python `TypeError` (the membership test
succeeds on the array, the string subscription then fails), so no
`PagureAPIException` of any kind is raised. -/
theorem c3_counterexample :
    call_api "https://x/api/0/p"
        (get_raw_request ⟨404, "[\"error\"]", "NOT FOUND", .ok (.arr [.str "error"])⟩)
      = .error (.py .typeError) ∧
    raisesPagureAPIExc (call_api "https://x/api/0/p"
        (get_raw_request ⟨404, "[\"error\"]", "NOT FOUND", .ok (.arr [.str "error"])⟩))
      = false :=
  ⟨rfl, rfl⟩

/-- C3 (witness): a 404 response carrying `error` in its object body. -/
theorem c3_witness :
    call_api "https://x/api/0/p"
        (get_raw_request ⟨404, "body", "NOT FOUND",
          .ok (.obj [("error", .str "Project not found")])⟩)
      = .error (.pagureAPI (.notFound "https://x/api/0/p"
          (some (.str "Project not found")))) := by
  simpa [notFound_error_msg, objLookup]
    using c3_not_found "https://x/api/0/p"
      ⟨404, "body", "NOT FOUND", .ok (.obj [("error", .str "Project not found")])⟩
      rfl (Or.inr ⟨[("error", .str "Project not found")], rfl⟩)

/-- C4 (amended): for every response with a not-ok (400..599), non-404 status
whose body decodes to a JSON object binding `error`, `call_api` raises the
API-error exception carrying that error value and the full decoded body.
(As stated for every non-2xx, non-404 status the claim fails: a 3xx response
such as 304 is `ok` to `requests`, so its body is returned instead, see the
counterexample.) -/
theorem c4_api_error (url : String) (resp : HttpResponse)
    (fields : List (String × Json)) (v : Json)
    (h4 : 400 ≤ resp.status_code) (h6 : resp.status_code < 600)
    (hn : resp.status_code ≠ 404)
    (hj : resp.json = .ok (.obj fields))
    (hv : objLookup fields "error" = some v) :
    call_api url (get_raw_request resp)
      = .error (.pagureAPI (.apiError url v (.obj fields))) := by
  have hok : responseOk resp.status_code = false := by
    unfold responseOk
    rw [if_pos]
    exact ⟨h4, h6⟩
  obtain ⟨f, hfind, hv2⟩ :
      ∃ f, fields.find? (fun f => f.1 == "error") = some f ∧ f.2 = v := by
    unfold objLookup at hv
    cases hfind : fields.find? (fun f => f.1 == "error") with
    | none => rw [hfind] at hv; simp at hv
    | some f => rw [hfind] at hv; simp at hv; exact ⟨f, rfl, hv⟩
  have hany := any_key_of_find?_eq_some hfind
  cases fields with
  | nil => simp at hfind
  | cons g rest =>
    simp [call_api, get_raw_request, hn, hj, hok, Json.toBool, Json.hasMember,
      hany, Json.getItemStr, objLookup, hfind, hv2]

/-- C4 (counterexample): a 304 response (non-2xx, non-404) with an
`error`-carrying object body raises nothing — `requests` counts 304 as ok,
so `call_api` returns the body. -/
theorem c4_counterexample :
    call_api "https://x/api/0/p"
        (get_raw_request ⟨304, "body", "Not Modified",
          .ok (.obj [("error", .str "boom")])⟩)
      = .ok (.obj [("error", .str "boom")]) ∧
    raisesPagureAPIExc (call_api "https://x/api/0/p"
        (get_raw_request ⟨304, "body", "Not Modified",
          .ok (.obj [("error", .str "boom")])⟩))
      = false :=
  ⟨rfl, rfl⟩

/-- C4 (witness): a 500 response carrying `error` in its object body. -/
theorem c4_witness :
    call_api "https://x/api/0/new"
        (get_raw_request ⟨500, "body", "SERVER ERROR",
          .ok (.obj [("error", .str "Internal server error")])⟩)
      = .error (.pagureAPI (.apiError "https://x/api/0/new"
          (.str "Internal server error")
          (.obj [("error", .str "Internal server error")]))) :=
  c4_api_error "https://x/api/0/new"
    ⟨500, "body", "SERVER ERROR", .ok (.obj [("error", .str "Internal server error")])⟩
    [("error", .str "Internal server error")] (.str "Internal server error")
    (by decide) (by decide) (by decide) rfl rfl

/-- C5 (code behaviour at the claimed inputs): on the structured
invalid-namespace error body the domain `OgrException` is raised as claimed
(first conjunct); but a failing creation call whose error body lacks the
`errors` object — the shape `call_api` itself produces `pagure_response`
from only requires an `error` binding — does not propagate the original
`PagureAPIException` (third conjunct): the unguarded subscript chain
`ex.pagure_response["errors"]["namespace"][0]` raises a Python `KeyError`
instead (second conjunct), although the `raise ex` fall-through shows the
original exception was meant to propagate. -/
theorem c5_project_create_bug :
    project_create "https://x" "r" (some "ns") none
        (get_raw_request ⟨400, "body", "BAD REQUEST",
          .ok (.obj [("error", .str "Invalid request"),
                     ("errors", .obj [("namespace",
                        .arr [.str "Not a valid choice"])])])⟩)
      = .error (.ogr ⟨"Cannot create project in given namespace (ns)."⟩) ∧
    project_create "https://x" "r" (some "ns") none
        (get_raw_request ⟨400, "body", "BAD REQUEST",
          .ok (.obj [("error", .str "Invalid request")])⟩)
      = .error (.py .keyError) ∧
    call_api (get_api_url "https://x" [some "new"] true)
        (get_raw_request ⟨400, "body", "BAD REQUEST",
          .ok (.obj [("error", .str "Invalid request")])⟩)
      = .error (.pagureAPI (.apiError (get_api_url "https://x" [some "new"] true)
          (.str "Invalid request") (.obj [("error", .str "Invalid request")]))) :=
  ⟨rfl, rfl, rfl⟩

/-- C6 (amended): `get_api_url` joins the segments that are present with
`"/"`, prefixed by the API root (or the bare instance URL when API-prefixing
is disabled); absent (`None`) segments are skipped, but empty-string segments
are kept (see the counterexample); in particular `["a", None, "b"]` with
API-prefixing enabled yields `{instance_url}/api/0/a/b`. -/
theorem c6_get_api_url (instance_url : String) (args : List (Option String)) :
    get_api_url instance_url args true
      = instance_url ++ "/api/0/" ++ String.intercalate "/" (args.filterMap id) ∧
    get_api_url instance_url args false
      = instance_url ++ "/" ++ String.intercalate "/" (args.filterMap id) ∧
    get_api_url instance_url [some "a", none, some "b"] true
      = instance_url ++ "/api/0/a/b" :=
  ⟨rfl, rfl,
    (string_append_assoc instance_url "/api/0/"
      (String.intercalate "/" (List.filterMap id [some "a", none, some "b"]))).trans rfl⟩

/-- C6 (counterexample): an empty-string segment is not skipped — the built
URL keeps it and contains a double slash. -/
theorem c6_counterexample :
    get_api_url "https://x" [some "a", some "", some "b"] true
      = "https://x/api/0/a//b" ∧
    get_api_url "https://x" [some "a", some "", some "b"] true
      ≠ "https://x/api/0/a/b" := by
  refine ⟨rfl, ?_⟩
  decide

/-- C7: after `change_token` the stored auth header is exactly
`\x7b"Authorization": "token " + <new token>\x7d`; a subsequent request issued
without an explicit header uses exactly that header, and the result is
independent of whatever header the client carried before the change. -/
theorem c7_change_token (s : PagureService) (token : String) :
    (change_token s token).header = [("Authorization", "token " ++ token)] ∧
    request_headers (change_token s token) none
      = [("Authorization", "token " ++ token)] ∧
    ∀ s2 : PagureService,
      request_headers (change_token s token) none
        = request_headers (change_token s2 token) none :=
  ⟨rfl, rfl, fun _ => rfl⟩

/-- C8: when `response.json()` raises (no decodable body), `get_raw_request`
still returns a wrapper — it keeps the raw bytes and the status code and
carries an absent decoded-JSON field — while the checked call `call_api`
raises an exception on that same wrapper for every URL: the decode failure is
fatal only on the checked path. -/
theorem c8_raw_decode_nonfatal (resp : HttpResponse) (h : resp.json = .error ()) :
    (get_raw_request resp).json_content = none ∧
    (get_raw_request resp).content = resp.content ∧
    (get_raw_request resp).status_code = resp.status_code ∧
    ∀ url, isExcError (call_api url (get_raw_request resp)) = true := by
  refine ⟨by simp [get_raw_request, h], rfl, rfl, fun url => ?_⟩
  by_cases hs : resp.status_code = 404
  · simp [call_api, get_raw_request, hs, h, isExcError]
  · simp [call_api, get_raw_request, hs, h, isExcError]

/-- C8 (witness): a 200 response with a non-JSON body. -/
theorem c8_witness :
    (get_raw_request ⟨200, "plain text file", "OK", .error ()⟩).json_content = none ∧
    (get_raw_request ⟨200, "plain text file", "OK", .error ()⟩).content
      = "plain text file" ∧
    (get_raw_request ⟨200, "plain text file", "OK", .error ()⟩).status_code = 200 ∧
    ∀ url, isExcError (call_api url
      (get_raw_request ⟨200, "plain text file", "OK", .error ()⟩)) = true :=
  c8_raw_decode_nonfatal ⟨200, "plain text file", "OK", .error ()⟩ rfl

/-- C9: given a raw note exposing all four attributes, with `username` bound
in its `author` dict, the adapter yields exactly
`\x7bcomment: body, author: username, created: created_at,
edited: updated_at\x7d`, each copied verbatim; moreover, over all raw notes,
the adapter fails precisely when a required field is absent. -/
theorem c9_from_raw_comment (body username created updated : String)
    (d : List (String × String)) (h : lookupStr d "username" = some username) :
    GitlabCommentParser.from_raw_comment ⟨some body, some d, some created, some updated⟩
      = .ok { comment := body, author := username, created := created, edited := updated } ∧
    ∀ raw : RawComment,
      isExcError (GitlabCommentParser.from_raw_comment raw) = raw.missing_required := by
  constructor
  · simp [GitlabCommentParser.from_raw_comment, getAttr, dictGetStr, h,
      Bind.bind, Except.bind, pure, Except.pure]
  · intro raw
    obtain ⟨b, a, c, u⟩ := raw
    cases b with
    | none =>
      simp [GitlabCommentParser.from_raw_comment, getAttr,
        RawComment.missing_required, isExcError, Bind.bind, Except.bind, pure, Except.pure]
    | some bv =>
      cases a with
      | none =>
        simp [GitlabCommentParser.from_raw_comment, getAttr,
          RawComment.missing_required, isExcError, Bind.bind, Except.bind, pure, Except.pure]
      | some d2 =>
        cases hl : lookupStr d2 "username" with
        | none =>
          simp [GitlabCommentParser.from_raw_comment, getAttr, dictGetStr,
            RawComment.missing_required, isExcError, hl, Bind.bind, Except.bind, pure, Except.pure]
        | some uv =>
          cases c <;> cases u <;>
            simp [GitlabCommentParser.from_raw_comment, getAttr, dictGetStr,
              RawComment.missing_required, isExcError, hl, Bind.bind, Except.bind,
              Functor.map, Except.map, pure, Except.pure]

/-- C9 (witness): the spec's concrete example note. -/
theorem c9_witness :
    (GitlabCommentParser.from_raw_comment
        ⟨some "hi", some [("username", "x")], some "T1", some "T2"⟩
      = .ok { comment := "hi", author := "x", created := "T1", edited := "T2" } ∧
    ∀ raw : RawComment,
      isExcError (GitlabCommentParser.from_raw_comment raw) = raw.missing_required) :=
  c9_from_raw_comment "hi" "x" "T1" "T2" [("username", "x")] rfl

/-- C10 (amended): whenever the description argument is absent or empty, the
creation request's description parameter is set to the repository name, so it
is non-empty whenever the repository name is.  (The claim's "the forge never
receives an empty description" fails when the repository name itself is
empty, see the counterexample.) -/
theorem c10_description_default (repo : String) (name_space description : Option String)
    (h : description = none ∨ description = some "") :
    (project_create_parameters repo name_space description).description = repo ∧
    (repo ≠ "" →
      (project_create_parameters repo name_space description).description ≠ "") := by
  rcases h with h | h <;> subst h
  · exact ⟨rfl, fun hr h2 => hr h2⟩
  · exact ⟨rfl, fun hr h2 => hr h2⟩

/-- C10 (counterexample): with an empty repository name and an absent
description, the description parameter sent to the forge is the empty
string. -/
theorem c10_counterexample :
    (project_create_parameters "" none none).description = "" := rfl

/-- C10 (witness): an absent description is replaced by the repository
name. -/
theorem c10_witness :
    ((project_create_parameters "ogr-test" none none).description = "ogr-test" ∧
     ("ogr-test" ≠ "" →
       (project_create_parameters "ogr-test" none none).description ≠ "")) :=
  c10_description_default "ogr-test" none none (Or.inl rfl)

end Ogr
